import Mathlib

/-!
Verification of the `Channel` model and seeding routine of
`src/model/channel.py` (flocker_backend).

The Python file defines a SQLAlchemy model `Channel` (table `channels` with
columns `id` integer primary key, `_name` String NOT NULL, `_attributes`
JSON nullable, `_group_id` integer NOT NULL foreign key to `groups.id`),
its constructor, `create` (add + commit, rollback + re-raise on exception),
`read` (dictionary snapshot), and `initChannels` (schema creation, group
lookups by name, construction of sixteen fixed channels, and a per-item
insert loop that catches `IntegrityError`, rolls back and continues).

The relational store itself (the SQLAlchemy session and the SQLite engine)
is an external collaborator of the repository; its commit/rollback
semantics are modelled here from the specification (scoped transaction per
persist, committed on success, rolled back on any exception; constraint
violations raise an integrity error; other persistence failures are
possible and are represented by a fault oracle on the store).
-/

set_option maxRecDepth 4000

namespace Flocker

/-- JSON-like scalar values, for the `_attributes` JSON blob. -/
inductive JValue where
  | str (s : String)
  | num (n : Int)
  | boolean (b : Bool)
  | null
  deriving DecidableEq

/-- A JSON object: the open-ended key/value attribute bag. -/
abbrev Attrs := List (String × JValue)

/-- A row of the `groups` table (external `Group` model): `id` and `_name`
as used by `Group.query.filter_by(_name=...)` in `initChannels`. -/
structure Group where
  id : Nat
  _name : String
  deriving DecidableEq

/-- The in-memory `Channel` object.  `id` is None until the store assigns
it; `_name` and `_group_id` are whatever the constructor received (the
columns are NOT NULL, but that is enforced only by the store at commit
time, hence `Option` here); `_attributes` is the nullable JSON column. -/
structure Channel where
  id : Option Nat
  _name : Option String
  _group_id : Option Nat
  _attributes : Option Attrs
  deriving DecidableEq

/-- Python truthiness of a dict: non-empty dicts are truthy. -/
def pyTruthy (a : Attrs) : Bool := !a.isEmpty

/-- The expression `attributes or {}` from `Channel.__init__`: `None` and
the empty (falsy) dict both yield a fresh empty dict. -/
def pyOrEmpty (a : Option Attrs) : Attrs :=
  match a with
  | none => []
  | some m => if pyTruthy m then m else []

/-- `Channel.__init__(self, name, group_id, attributes=None)`: stores
`name` and `group_id` verbatim and `attributes or {}`; `id` is unset. -/
def Channel.init (name : Option String) (group_id : Option Nat)
    (attributes : Option Attrs) : Channel :=
  { id := none
    _name := name
    _group_id := group_id
    _attributes := some (pyOrEmpty attributes) }

/-- The `name` property: `return self._name`. -/
def Channel.name (c : Channel) : Option String := c._name

/-- Python values appearing in the dictionary returned by `Channel.read`. -/
inductive PyVal where
  | none
  | int (n : Nat)
  | str (s : String)
  | dict (m : Attrs)
  deriving DecidableEq

/-- View an optional integer field as the Python value it prints as. -/
def optInt : Option Nat → PyVal
  | Option.none => PyVal.none
  | Option.some n => PyVal.int n

/-- View an optional string field as the Python value it prints as. -/
def optStr : Option String → PyVal
  | Option.none => PyVal.none
  | Option.some s => PyVal.str s

/-- View the optional JSON attributes field as a Python value. -/
def optDict : Option Attrs → PyVal
  | Option.none => PyVal.none
  | Option.some m => PyVal.dict m

/-- `Channel.read`: the dictionary
`{'id': self.id, 'name': self._name, 'attributes': self._attributes,
'group_id': self._group_id}`, as an association list in source order. -/
def Channel.read (c : Channel) : List (String × PyVal) :=
  [ ("id", optInt c.id)
  , ("name", optStr c._name)
  , ("attributes", optDict c._attributes)
  , ("group_id", optInt c._group_id) ]

/-- Errors raised by the store during a persist.  `integrityError` is the
constraint-violation class the seeding loop catches; `operationalError`
stands for every other persistence failure (spec section 7: "Any other
persistence failure"). -/
inductive DBError where
  | integrityError (msg : String)
  | operationalError (msg : String)
  deriving DecidableEq

/-- A committed row of the `channels` table.  `name` and `group_id` are
non-null here because the store enforces NOT NULL at insert time. -/
structure ChannelRow where
  id : Nat
  name : String
  group_id : Nat
  attributes : Option Attrs
  deriving DecidableEq

/-- Modelled from the spec: the durable store behind the ORM.  `groups`
and `channels` are the two tables visible to this module,
`nextChannelId` is the store-assigned primary-key counter, and `faults`
is an oracle of channel names on which the store raises a
non-IntegrityError persistence failure (spec: "Any other persistence
failure — surfaced to the caller"). -/
structure DB where
  groups : List Group
  channels : List ChannelRow
  nextChannelId : Nat
  faults : List String
  deriving DecidableEq

/-- `db.create_all()`: idempotently ensures the schema exists.  The
schema is implicit in the `DB` type, so this is the identity on states. -/
def DB.createAll (db : DB) : DB := db

/-- Whether the fault oracle fires for this channel's insert. -/
def Channel.faulted (db : DB) (c : Channel) : Bool :=
  match c._name with
  | none => false
  | some n => db.faults.contains n

/-- Modelled from the spec: inserting one pending `Channel` row during a
commit.  Enforces the schema declared in `src/model/channel.py`: NOT NULL
on `_name` and `_group_id` and the foreign key `_group_id → groups.id`;
a violation raises an `IntegrityError`.  On success the store assigns the
next primary key and appends the row.  A store fault raises a
non-integrity error. -/
def DB.insertChannel (db : DB) (c : Channel) : Except DBError (DB × Channel) :=
  if Channel.faulted db c then
    Except.error (DBError.operationalError "database fault")
  else
    match c._name, c._group_id with
    | some nm, some g =>
        if db.groups.any (fun grp => grp.id == g) then
          Except.ok
            ( { db with
                  channels := db.channels ++ [⟨db.nextChannelId, nm, g, c._attributes⟩]
                  nextChannelId := db.nextChannelId + 1 }
            , { c with id := some db.nextChannelId } )
        else
          Except.error (DBError.integrityError "FOREIGN KEY constraint failed")
    | _, _ => Except.error (DBError.integrityError "NOT NULL constraint failed")

/-- Insert a list of pending rows left to right; the first failure aborts
the whole flush (the transaction commits all-or-nothing). -/
def DB.insertAll (db : DB) : List Channel → Except DBError (DB × List Channel)
  | [] => Except.ok (db, [])
  | c :: rest =>
    match DB.insertChannel db c with
    | Except.ok (db1, c1) =>
      match DB.insertAll db1 rest with
      | Except.ok (db2, cs) => Except.ok (db2, c1 :: cs)
      | Except.error e => Except.error e
    | Except.error e => Except.error e

/-- Modelled from the spec: the ORM session — the durable store plus the
rows added since the last commit or rollback. -/
structure Session where
  store : DB
  pending : List Channel
  deriving DecidableEq

/-- `db.session.add(obj)`: queue the object for the next commit. -/
def Session.add (s : Session) (c : Channel) : Session :=
  { s with pending := s.pending ++ [c] }

/-- `db.session.commit()`: flush all pending rows inside one transaction;
on success the pending list is cleared and the flushed objects carry their
assigned ids; on failure the error is raised and nothing is committed. -/
def Session.commit (s : Session) : Except DBError (Session × List Channel) :=
  match DB.insertAll s.store s.pending with
  | Except.ok (db2, cs) => Except.ok ({ store := db2, pending := [] }, cs)
  | Except.error e => Except.error e

/-- `db.session.rollback()`: discard the pending rows; the durable store
is untouched. -/
def Session.rollback (s : Session) : Session :=
  { store := s.store, pending := [] }

/-- `Channel.create`: `try: db.session.add(self); db.session.commit()
except Exception as e: db.session.rollback(); raise e`.  Returns the
session after the call together with either the persisted object (its id
assigned by the store) or the re-raised error. -/
def Channel.create (c : Channel) (s : Session) : Session × Except DBError Channel :=
  let s1 := Session.add s c
  match Session.commit s1 with
  | Except.ok (s2, flushed) => (s2, Except.ok (List.getLastD flushed c))
  | Except.error e => (Session.rollback s1, Except.error e)

/-- One diagnostic line printed by the seeding loop: either
`Record created: {repr(channel)}` (carrying the persisted object) or
`Records exist, duplicate email, or error: {channel.name}`. -/
inductive LogMsg where
  | created (c : Channel)
  | skipped (name : Option String)
  deriving DecidableEq

/-- Errors escaping `initChannels`: the `AttributeError` raised by
`group.id` when a `filter_by(_name=...).first()` lookup returned `None`
(tagged with the group name looked up), or an uncaught store error from
the insert loop. -/
inductive SeedError where
  | attributeError (groupName : String)
  | dbError (e : DBError)
  deriving DecidableEq

/-- `Group.query.filter_by(_name=name).first()`: the first row of the
`groups` table whose `_name` equals the argument, if any. -/
def Group.firstByName (gs : List Group) (name : String) : Option Group :=
  (gs.filter (fun g => g._name == name)).head?

/-- The `for channel in channels:` loop of `initChannels`: for each
channel, `db.session.add` then `db.session.commit`; print a created line
on success; on `IntegrityError` roll back and print a skipped line,
then continue; any other error propagates uncaught. -/
def seedLoop (s : Session) (log : List LogMsg) :
    List Channel → Except DBError (Session × List LogMsg)
  | [] => Except.ok (s, log)
  | c :: rest =>
    match Session.commit (Session.add s c) with
    | Except.ok (s2, flushed) =>
        seedLoop s2 (log ++ [LogMsg.created (List.getLastD flushed c)]) rest
    | Except.error (DBError.integrityError _) =>
        seedLoop (Session.rollback (Session.add s c))
          (log ++ [LogMsg.skipped (Channel.name c)]) rest
    | Except.error e => Except.error e

/-- `initChannels()`: create the schema, resolve the six referenced groups
by name, build the four home-page channels and the twelve shared-interest
channels in source order, and run the insert loop on their concatenation.
A `None` lookup surfaces as the `AttributeError` of the first `.id`
access, in the evaluation order of the source. -/
def initChannels (db0 : DB) : Except SeedError (DB × List LogMsg) :=
  let db := DB.createAll db0
  match Group.firstByName db.groups "General" with
  | none => Except.error (SeedError.attributeError "General")
  | some general =>
  match Group.firstByName db.groups "Support" with
  | none => Except.error (SeedError.attributeError "Support")
  | some support =>
  let home_page_channels : List Channel :=
    [ Channel.init (some "Announcements") (some general.id) none
    , Channel.init (some "Events") (some general.id) none
    , Channel.init (some "FAQ") (some support.id) none
    , Channel.init (some "Help Desk") (some support.id) none ]
  match Group.firstByName db.groups "Limitless Connections" with
  | none => Except.error (SeedError.attributeError "Limitless Connections")
  | some limitless_connection =>
  match Group.firstByName db.groups "DNHS Football" with
  | none => Except.error (SeedError.attributeError "DNHS Football")
  | some dnhs_football =>
  match Group.firstByName db.groups "School Subjects" with
  | none => Except.error (SeedError.attributeError "School Subjects")
  | some school_subjects =>
  match Group.firstByName db.groups "Music" with
  | none => Except.error (SeedError.attributeError "Music")
  | some music =>
  match Group.firstByName db.groups "Satire" with
  | none => Except.error (SeedError.attributeError "Satire")
  | some satire =>
  match Group.firstByName db.groups "Activity Hub" with
  | none => Except.error (SeedError.attributeError "Activity Hub")
  | some activity_hub =>
  let shared_interest_channels : List Channel :=
    [ Channel.init (some "Penpal Letters") (some limitless_connection.id) none
    , Channel.init (some "Game vs Poway") (some dnhs_football.id) none
    , Channel.init (some "Game vs Westview") (some dnhs_football.id) none
    , Channel.init (some "Math") (some school_subjects.id) none
    , Channel.init (some "English") (some school_subjects.id) none
    , Channel.init (some "Artist") (some music.id) none
    , Channel.init (some "Music Genre") (some music.id) none
    , Channel.init (some "Humor") (some satire.id) none
    , Channel.init (some "Memes") (some satire.id) none
    , Channel.init (some "Irony") (some satire.id) none
    , Channel.init (some "Cyber Patriots") (some activity_hub.id) none
    , Channel.init (some "Robotics") (some activity_hub.id) none ]
  let channels := home_page_channels ++ shared_interest_channels
  match seedLoop ⟨db, []⟩ [] channels with
  | Except.ok (s, log) => Except.ok (s.store, log)
  | Except.error e => Except.error (SeedError.dbError e)

/-- The sixteen seeded channels as a function of the six resolved groups,
in list order (used to state what `initChannels` inserts). -/
def seedChannels (general support limitless_connection dnhs_football
    school_subjects music satire activity_hub : Group) : List Channel :=
  [ Channel.init (some "Announcements") (some general.id) none
  , Channel.init (some "Events") (some general.id) none
  , Channel.init (some "FAQ") (some support.id) none
  , Channel.init (some "Help Desk") (some support.id) none
  , Channel.init (some "Penpal Letters") (some limitless_connection.id) none
  , Channel.init (some "Game vs Poway") (some dnhs_football.id) none
  , Channel.init (some "Game vs Westview") (some dnhs_football.id) none
  , Channel.init (some "Math") (some school_subjects.id) none
  , Channel.init (some "English") (some school_subjects.id) none
  , Channel.init (some "Artist") (some music.id) none
  , Channel.init (some "Music Genre") (some music.id) none
  , Channel.init (some "Humor") (some satire.id) none
  , Channel.init (some "Memes") (some satire.id) none
  , Channel.init (some "Irony") (some satire.id) none
  , Channel.init (some "Cyber Patriots") (some activity_hub.id) none
  , Channel.init (some "Robotics") (some activity_hub.id) none ]

/-- The rows the store ends up holding after successfully inserting the
given channels starting at primary key `i` (NOT NULL fields are read off
with defaults; the defaults are irrelevant when every field is present). -/
def rowsFrom (i : Nat) : List Channel → List ChannelRow
  | [] => []
  | c :: rest =>
      ⟨i, Option.getD c._name "", Option.getD c._group_id 0, c._attributes⟩
        :: rowsFrom (i + 1) rest

/-- A channel whose insert will succeed against this store: not faulted,
non-null name and group id, and the group id references a `groups` row. -/
def insertable (db : DB) (c : Channel) : Prop :=
  Channel.faulted db c = false ∧
  (∃ nm, c._name = some nm) ∧
  (∃ g, c._group_id = some g ∧ db.groups.any (fun grp => grp.id == g) = true)

end Flocker

namespace Flocker

/-- A store fixture holding the eight groups the seeder references, used
to instantiate the general theorems at a concrete input. -/
def groupsFixture : List Group :=
  [ ⟨1, "General"⟩, ⟨2, "Support"⟩, ⟨3, "Limitless Connections"⟩
  , ⟨4, "DNHS Football"⟩, ⟨5, "School Subjects"⟩, ⟨6, "Music"⟩
  , ⟨7, "Satire"⟩, ⟨8, "Activity Hub"⟩ ]

/-- An empty, fault-free store over `groupsFixture`. -/
def dbFixture : DB := ⟨groupsFixture, [], 1, []⟩

/-! ### Helper lemmas -/

theorem getLastD_singleton (x d : Channel) : List.getLastD [x] d = x := rfl

theorem pyOrEmpty_eq_getD (a : Option Attrs) : pyOrEmpty a = Option.getD a [] := by
  cases a with
  | none => rfl
  | some m =>
    cases m with
    | nil => rfl
    | cons x t => rfl

theorem firstByName_any (gs : List Group) (n : String) (g : Group)
    (h : Group.firstByName gs n = some g) :
    gs.any (fun grp => grp.id == g.id) = true := by
  induction gs with
  | nil => simp [Group.firstByName] at h
  | cons a t ih =>
    unfold Group.firstByName at h
    rw [List.filter_cons] at h
    by_cases hp : (a._name == n) = true
    · rw [if_pos hp] at h
      simp only [List.head?] at h
      injection h with h
      subst h
      simp
    · rw [if_neg hp] at h
      have := ih h
      simp only [List.any_cons]
      rw [this]
      simp

theorem insertChannel_ok (db : DB) (c : Channel) (nm : String) (g : Nat)
    (hf : Channel.faulted db c = false) (hn : c._name = some nm)
    (hg : c._group_id = some g)
    (hex : db.groups.any (fun grp => grp.id == g) = true) :
    DB.insertChannel db c =
      Except.ok
        ( { db with
              channels := db.channels ++ [⟨db.nextChannelId, nm, g, c._attributes⟩]
              nextChannelId := db.nextChannelId + 1 }
        , { c with id := some db.nextChannelId } ) := by
  unfold DB.insertChannel
  rw [hf]
  simp only [Bool.false_eq_true, if_false, hn, hg, hex, if_true]

theorem insertable_congr (db db1 : DB) (c : Channel)
    (hg : db1.groups = db.groups) (hf : db1.faults = db.faults) :
    insertable db c → insertable db1 c := by
  rintro ⟨h1, ⟨nm, h2⟩, ⟨g, h3, h4⟩⟩
  refine ⟨?_, ⟨nm, h2⟩, ⟨g, h3, ?_⟩⟩
  · unfold Channel.faulted at h1 ⊢
    rw [hf]
    exact h1
  · rw [hg]
    exact h4

theorem seedLoop_ok (chans : List Channel) (db : DB) (log : List LogMsg)
    (h : ∀ c ∈ chans, insertable db c) :
    ∃ log2,
      seedLoop ⟨db, []⟩ log chans =
        Except.ok
          ( ⟨⟨db.groups, db.channels ++ rowsFrom db.nextChannelId chans,
              db.nextChannelId + chans.length, db.faults⟩, []⟩
          , log ++ log2 ) := by
  induction chans generalizing db log with
  | nil =>
    refine ⟨[], ?_⟩
    simp only [seedLoop, rowsFrom, List.append_nil, List.length_nil, Nat.add_zero]
  | cons c rest ih =>
    obtain ⟨hf, ⟨nm, hn⟩, ⟨g, hgid, hex⟩⟩ := h c (List.mem_cons_self c rest)
    have hins := insertChannel_ok db c nm g hf hn hgid hex
    set db1 : DB :=
      { db with
          channels := db.channels ++ [⟨db.nextChannelId, nm, g, c._attributes⟩]
          nextChannelId := db.nextChannelId + 1 } with hdb1
    have hcommit :
        Session.commit (Session.add ⟨db, []⟩ c) =
          Except.ok (⟨db1, []⟩, [{ c with id := some db.nextChannelId }]) := by
      unfold Session.add Session.commit
      simp only [List.nil_append]
      unfold DB.insertAll
      rw [hins]
      rfl
    have hrest : ∀ c1 ∈ rest, insertable db1 c1 := by
      intro c1 hc1
      exact insertable_congr db db1 c1 rfl rfl (h c1 (List.mem_cons_of_mem c hc1))
    obtain ⟨log2, hloop⟩ :=
      ih db1 (log ++ [LogMsg.created { c with id := some db.nextChannelId }]) hrest
    refine ⟨LogMsg.created { c with id := some db.nextChannelId } :: log2, ?_⟩
    unfold seedLoop
    rw [hcommit]
    dsimp only [getLastD_singleton]
    rw [hloop]
    have hrows :
        db1.channels ++ rowsFrom db1.nextChannelId rest =
          db.channels ++ rowsFrom db.nextChannelId (c :: rest) := by
      rw [hdb1]
      simp only [rowsFrom, hn, hgid, Option.getD_some, List.append_assoc,
        List.singleton_append]
    have hlen : db1.nextChannelId + rest.length = db.nextChannelId + (c :: rest).length := by
      rw [hdb1]
      simp only [List.length_cons]
      omega
    rw [hrows, hlen, hdb1]
    simp only [List.append_assoc, List.singleton_append]

end Flocker

namespace Flocker

theorem insertChannel_spec (db : DB) (c : Channel) (db1 : DB) (c1 : Channel)
    (h : DB.insertChannel db c = Except.ok (db1, c1)) :
    db1.groups = db.groups ∧ db1.faults = db.faults ∧
      ∃ row, db1.channels = db.channels ++ [row] := by
  unfold DB.insertChannel at h
  split at h
  · exact absurd h (by simp)
  · split at h
    · split at h
      · injection h with h
        injection h with h1 h2
        subst h1
        exact ⟨rfl, rfl, ⟨_, rfl⟩⟩
      · exact absurd h (by simp)
    · exact absurd h (by simp)

theorem insertAll_spec (cs : List Channel) (db db2 : DB) (l : List Channel)
    (h : DB.insertAll db cs = Except.ok (db2, l)) :
    db2.groups = db.groups ∧ db2.faults = db.faults ∧
      ∃ tail, db2.channels = db.channels ++ tail := by
  induction cs generalizing db l with
  | nil =>
    unfold DB.insertAll at h
    injection h with h
    injection h with h1 h2
    subst h1
    exact ⟨rfl, rfl, ⟨[], (List.append_nil _).symm⟩⟩
  | cons c rest ih =>
    unfold DB.insertAll at h
    cases hins : DB.insertChannel db c with
    | ok p =>
      obtain ⟨dbm, cm⟩ := p
      rw [hins] at h
      dsimp only at h
      cases hall : DB.insertAll dbm rest with
      | ok q =>
        obtain ⟨dbq, cq⟩ := q
        rw [hall] at h
        simp only [Except.ok.injEq, Prod.mk.injEq] at h
        obtain ⟨h1, h2⟩ := h
        subst h1
        obtain ⟨hg1, hf1, ⟨row, hc1⟩⟩ := insertChannel_spec db c dbm cm hins
        obtain ⟨hg2, hf2, ⟨tail, hc2⟩⟩ := ih dbm cq hall
        refine ⟨hg2.trans hg1, hf2.trans hf1, ⟨[row] ++ tail, ?_⟩⟩
        rw [hc2, hc1, List.append_assoc]
      | error e =>
        rw [hall] at h
        exact absurd h (by simp)
    | error e =>
      rw [hins] at h
      exact absurd h (by simp)


theorem commit_spec (s1 s2 : Session) (l : List Channel)
    (h : Session.commit s1 = Except.ok (s2, l)) :
    s2.pending = [] ∧ DB.insertAll s1.store s1.pending = Except.ok (s2.store, l) := by
  unfold Session.commit at h
  cases hins : DB.insertAll s1.store s1.pending with
  | ok p =>
    obtain ⟨db2, cs⟩ := p
    rw [hins] at h
    simp only [Except.ok.injEq, Prod.mk.injEq] at h
    obtain ⟨h1, h2⟩ := h
    subst h2
    constructor
    · rw [← h1]
    · rw [← h1]
  | error e =>
    rw [hins] at h
    exact absurd h (by simp)

theorem insertable_of_lookup (db : DB) (nm : String) (g : Group) (a : Option Attrs)
    (n2 : String) (hfl : db.faults = [])
    (h : Group.firstByName db.groups n2 = some g) :
    insertable db (Channel.init (some nm) (some g.id) a) := by
  refine ⟨?_, ⟨nm, rfl⟩, ⟨g.id, rfl, firstByName_any _ _ _ h⟩⟩
  simp [Channel.faulted, Channel.init, hfl]

end Flocker

namespace Flocker

theorem initChannels_eq_loop (db : DB) (gG gS gL gD gSS gM gSa gA : Group)
    (hG : Group.firstByName db.groups "General" = some gG)
    (hS : Group.firstByName db.groups "Support" = some gS)
    (hL : Group.firstByName db.groups "Limitless Connections" = some gL)
    (hD : Group.firstByName db.groups "DNHS Football" = some gD)
    (hSS : Group.firstByName db.groups "School Subjects" = some gSS)
    (hM : Group.firstByName db.groups "Music" = some gM)
    (hSa : Group.firstByName db.groups "Satire" = some gSa)
    (hA : Group.firstByName db.groups "Activity Hub" = some gA) :
    initChannels db =
      match seedLoop ⟨db, []⟩ [] (seedChannels gG gS gL gD gSS gM gSa gA) with
      | Except.ok (s, log) => Except.ok (s.store, log)
      | Except.error e => Except.error (SeedError.dbError e) := by
  simp only [initChannels, DB.createAll]
  rw [hG, hS, hL, hD, hSS, hM, hSa, hA]
  rfl

theorem initChannels_ok (db : DB) (gG gS gL gD gSS gM gSa gA : Group)
    (hfl : db.faults = [])
    (hG : Group.firstByName db.groups "General" = some gG)
    (hS : Group.firstByName db.groups "Support" = some gS)
    (hL : Group.firstByName db.groups "Limitless Connections" = some gL)
    (hD : Group.firstByName db.groups "DNHS Football" = some gD)
    (hSS : Group.firstByName db.groups "School Subjects" = some gSS)
    (hM : Group.firstByName db.groups "Music" = some gM)
    (hSa : Group.firstByName db.groups "Satire" = some gSa)
    (hA : Group.firstByName db.groups "Activity Hub" = some gA) :
    ∃ log,
      initChannels db =
        Except.ok
          ( ⟨db.groups,
             db.channels ++
               rowsFrom db.nextChannelId (seedChannels gG gS gL gD gSS gM gSa gA),
             db.nextChannelId + 16, db.faults⟩
          , log ) := by
  have hall : ∀ c ∈ seedChannels gG gS gL gD gSS gM gSa gA, insertable db c := by
    intro c hc
    simp only [seedChannels, List.mem_cons, List.not_mem_nil, or_false] at hc
    rcases hc with rfl | rfl | rfl | rfl | rfl | rfl | rfl | rfl | rfl | rfl | rfl | rfl |
      rfl | rfl | rfl | rfl
    · exact insertable_of_lookup db _ _ _ _ hfl hG
    · exact insertable_of_lookup db _ _ _ _ hfl hG
    · exact insertable_of_lookup db _ _ _ _ hfl hS
    · exact insertable_of_lookup db _ _ _ _ hfl hS
    · exact insertable_of_lookup db _ _ _ _ hfl hL
    · exact insertable_of_lookup db _ _ _ _ hfl hD
    · exact insertable_of_lookup db _ _ _ _ hfl hD
    · exact insertable_of_lookup db _ _ _ _ hfl hSS
    · exact insertable_of_lookup db _ _ _ _ hfl hSS
    · exact insertable_of_lookup db _ _ _ _ hfl hM
    · exact insertable_of_lookup db _ _ _ _ hfl hM
    · exact insertable_of_lookup db _ _ _ _ hfl hSa
    · exact insertable_of_lookup db _ _ _ _ hfl hSa
    · exact insertable_of_lookup db _ _ _ _ hfl hSa
    · exact insertable_of_lookup db _ _ _ _ hfl hA
    · exact insertable_of_lookup db _ _ _ _ hfl hA
  obtain ⟨log2, hloop⟩ :=
    seedLoop_ok (seedChannels gG gS gL gD gSS gM gSa gA) db [] hall
  refine ⟨[] ++ log2, ?_⟩
  rw [initChannels_eq_loop db gG gS gL gD gSS gM gSa gA hG hS hL hD hSS hM hSa hA]
  rw [hloop]
  rfl

end Flocker

namespace Flocker

/-- C4: if the store has no group named 'General', the seeder's name
lookup yields no match and the None-attribute access raises while
constructing the dependent channel: `initChannels` surfaces the reference
error (and reaches no insert), with no guard in the seeding code. -/
theorem initChannels_missing_group_raises (db : DB)
    (h : Group.firstByName db.groups "General" = none) :
    initChannels db = Except.error (SeedError.attributeError "General") := by
  simp only [initChannels, DB.createAll]
  rw [h]

/-- Witness for C4: seeding an empty store (no groups at all) surfaces
the 'General' reference error. -/
theorem initChannels_missing_group_raises_witness :
    initChannels ⟨[], [], 1, []⟩ = Except.error (SeedError.attributeError "General") :=
  initChannels_missing_group_raises ⟨[], [], 1, []⟩ rfl

/-- C6: constructing a Channel with the attributes argument omitted
(Python default `None`) stores the empty mapping, not null. -/
theorem init_omitted_attributes_empty (name : Option String) (gid : Option Nat) :
    (Channel.init name gid none)._attributes = some [] ∧
    (Channel.init name gid none)._attributes ≠ none := by
  exact ⟨rfl, by simp [Channel.init, pyOrEmpty]⟩

/-- C9: `read` is a pure function of the object: it returns an
association list whose keys are exactly id, name, attributes, group_id,
each value taken from the corresponding current field; it takes no store
or session argument, so it can modify neither (purity by type). -/
theorem read_exact_keys_pure (c : Channel) :
    (Channel.read c).map Prod.fst = ["id", "name", "attributes", "group_id"] ∧
    List.lookup "id" (Channel.read c) = some (optInt c.id) ∧
    List.lookup "name" (Channel.read c) = some (optStr c._name) ∧
    List.lookup "attributes" (Channel.read c) = some (optDict c._attributes) ∧
    List.lookup "group_id" (Channel.read c) = some (optInt c._group_id) := by
  refine ⟨rfl, ?_, ?_, ?_, ?_⟩ <;> simp [Channel.read, List.lookup]

/-- C10: constructor invariant: for every input the stored attributes
field is non-null — both `None` and the falsy empty dict are normalized
to the empty mapping — and the constructor stores name and group_id
verbatim with no validation (it is a total function: it never raises). -/
theorem init_attributes_never_null (name : Option String) (gid : Option Nat)
    (attrs : Option Attrs) :
    Channel.init name gid attrs =
      ⟨none, name, gid, some (Option.getD attrs [])⟩ ∧
    (Channel.init name gid attrs)._attributes ≠ none ∧
    (attrs = none ∨ attrs = some [] →
      (Channel.init name gid attrs)._attributes = some []) := by
  refine ⟨?_, ?_, ?_⟩
  · simp [Channel.init, pyOrEmpty_eq_getD]
  · simp [Channel.init]
  · rintro (rfl | rfl) <;> rfl

/-- Witness for C10 at the omitted (`None`) and empty-dict arguments. -/
theorem init_attributes_never_null_witness :
    (Channel.init (some "Announcements") (some 5) none)._attributes = some [] ∧
    (Channel.init (some "Announcements") (some 5) (some []))._attributes = some [] :=
  ⟨(init_attributes_never_null (some "Announcements") (some 5) none).2.2 (Or.inl rfl),
   (init_attributes_never_null (some "Announcements") (some 5) (some [])).2.2 (Or.inr rfl)⟩

end Flocker

namespace Flocker

theorem create_error_of_insertError (db : DB) (c : Channel) (e : DBError)
    (h : DB.insertChannel db c = Except.error e) :
    Channel.create c ⟨db, []⟩ = (⟨db, []⟩, Except.error e) := by
  have hcommit : Session.commit (Session.add ⟨db, []⟩ c) = Except.error e := by
    unfold Session.add Session.commit
    simp only [List.nil_append]
    unfold DB.insertAll
    rw [h]
  simp only [Channel.create]
  rw [hcommit]
  rfl

theorem create_ok_of_insert (db : DB) (c : Channel) (db1 : DB) (c1 : Channel)
    (h : DB.insertChannel db c = Except.ok (db1, c1)) :
    Channel.create c ⟨db, []⟩ = (⟨db1, []⟩, Except.ok c1) := by
  have hcommit : Session.commit (Session.add ⟨db, []⟩ c) =
      Except.ok (⟨db1, []⟩, [c1]) := by
    unfold Session.add Session.commit
    simp only [List.nil_append]
    unfold DB.insertAll
    rw [h]
    rfl
  simp only [Channel.create]
  rw [hcommit]
  rfl

/-- C2: `create` either commits the record in a single transaction
(pending flushed into the store, rows only appended), or, on any error
during add/commit, rolls back — the returned session holds the unchanged
prior store and an empty pending list — and re-raises exactly the
original error; no error is swallowed. -/
theorem channel_create_commits_or_rolls_back :
    (∀ (c : Channel) (s : Session) (s2 : Session) (flushed : List Channel),
      Session.commit (Session.add s c) = Except.ok (s2, flushed) →
      Channel.create c s = (s2, Except.ok (List.getLastD flushed c)) ∧
      s2.pending = [] ∧
      ∃ tail, s2.store.channels = s.store.channels ++ tail) ∧
    (∀ (c : Channel) (s : Session) (e : DBError),
      Session.commit (Session.add s c) = Except.error e →
      Channel.create c s = (⟨s.store, []⟩, Except.error e)) := by
  constructor
  · intro c s s2 flushed h
    refine ⟨?_, (commit_spec _ _ _ h).1, ?_⟩
    · simp only [Channel.create]
      rw [h]
    · obtain ⟨hp, hins⟩ := commit_spec _ _ _ h
      obtain ⟨hg, hf, ⟨tail, hc⟩⟩ := insertAll_spec _ _ _ _ hins
      exact ⟨tail, hc⟩
  · intro c s e h
    simp only [Channel.create]
    rw [h]
    rfl

/-- Witness for C2: a valid channel commits against the fixture store; a
channel with a null name makes the commit fail, and `create` returns the
unchanged store with the original integrity error re-raised. -/
theorem channel_create_commits_or_rolls_back_witness :
    (Channel.create (Channel.init (some "Announcements") (some 1) none) ⟨dbFixture, []⟩ =
        ( ⟨⟨groupsFixture, [⟨1, "Announcements", 1, some []⟩], 2, []⟩, []⟩
        , Except.ok ⟨some 1, some "Announcements", some 1, some []⟩ ) ∧
      (⟨⟨groupsFixture, [⟨1, "Announcements", 1, some []⟩], 2, []⟩, []⟩ : Session).pending = [] ∧
      ∃ tail,
        (⟨⟨groupsFixture, [⟨1, "Announcements", 1, some []⟩], 2, []⟩, []⟩ : Session).store.channels =
          (⟨dbFixture, []⟩ : Session).store.channels ++ tail) ∧
    Channel.create (Channel.init none (some 1) none) ⟨dbFixture, []⟩ =
      (⟨dbFixture, []⟩, Except.error (DBError.integrityError "NOT NULL constraint failed")) :=
  ⟨channel_create_commits_or_rolls_back.1 (Channel.init (some "Announcements") (some 1) none)
      ⟨dbFixture, []⟩ ⟨⟨groupsFixture, [⟨1, "Announcements", 1, some []⟩], 2, []⟩, []⟩
      [⟨some 1, some "Announcements", some 1, some []⟩] rfl,
   channel_create_commits_or_rolls_back.2 (Channel.init none (some 1) none) ⟨dbFixture, []⟩
      (DBError.integrityError "NOT NULL constraint failed") rfl⟩

/-- C3 counterexample: the claim says an empty name fails with a
validation error at persist time, but the declared schema only forbids
NULL: persisting a channel whose name is the empty string succeeds and
commits a row with name `""`. -/
theorem empty_name_persists :
    Channel.create (Channel.init (some "") (some 1) none) ⟨dbFixture, []⟩ =
      ( ⟨⟨groupsFixture, [⟨1, "", 1, some []⟩], 2, []⟩, []⟩
      , Except.ok ⟨some 1, some "", some 1, some []⟩ ) := rfl

/-- C3 (amended): construction stores name and groupId verbatim with no
in-memory validation; at persist time the store rejects a null name, a
null groupId, and a groupId referencing no existing group with an
IntegrityError (rolling back); an empty-string name is not rejected. -/
theorem channel_persist_null_and_fk_validation (db : DB) (name : Option String)
    (gid : Option Nat) (attrs : Option Attrs) (hfl : db.faults = []) :
    (Channel.init name gid attrs)._name = name ∧
    (Channel.init name gid attrs)._group_id = gid ∧
    (name = none →
      Channel.create (Channel.init name gid attrs) ⟨db, []⟩ =
        (⟨db, []⟩, Except.error (DBError.integrityError "NOT NULL constraint failed"))) ∧
    (gid = none →
      Channel.create (Channel.init name gid attrs) ⟨db, []⟩ =
        (⟨db, []⟩, Except.error (DBError.integrityError "NOT NULL constraint failed"))) ∧
    (∀ nm g, name = some nm → gid = some g →
      db.groups.any (fun grp => grp.id == g) = false →
      Channel.create (Channel.init name gid attrs) ⟨db, []⟩ =
        (⟨db, []⟩, Except.error (DBError.integrityError "FOREIGN KEY constraint failed"))) := by
  refine ⟨rfl, rfl, ?_, ?_, ?_⟩
  · rintro rfl
    cases gid with
    | none => exact create_error_of_insertError db _ _ rfl
    | some g => exact create_error_of_insertError db _ _ rfl
  · rintro rfl
    cases name with
    | none => exact create_error_of_insertError db _ _ rfl
    | some nm =>
      refine create_error_of_insertError db _ _ ?_
      have hfault : Channel.faulted db (Channel.init (some nm) none attrs) = false := by
        simp [Channel.faulted, Channel.init, hfl]
      simp [DB.insertChannel, Channel.faulted, Channel.init, hfl]
  · rintro nm g rfl rfl hany
    refine create_error_of_insertError db _ _ ?_
    have hfault : Channel.faulted db (Channel.init (some nm) (some g) attrs) = false := by
      simp [Channel.faulted, Channel.init, hfl]
    simp [DB.insertChannel, Channel.faulted, Channel.init, hfl, hany]

/-- Witness for C3 (amended), on the fixture store: null name, null
group id, and a dangling group id (99) are each rejected at persist time
with an IntegrityError. -/
theorem channel_persist_null_and_fk_validation_witness :
    Channel.create (Channel.init none (some 1) none) ⟨dbFixture, []⟩ =
      (⟨dbFixture, []⟩, Except.error (DBError.integrityError "NOT NULL constraint failed")) ∧
    Channel.create (Channel.init (some "Announcements") none none) ⟨dbFixture, []⟩ =
      (⟨dbFixture, []⟩, Except.error (DBError.integrityError "NOT NULL constraint failed")) ∧
    Channel.create (Channel.init (some "Announcements") (some 99) none) ⟨dbFixture, []⟩ =
      (⟨dbFixture, []⟩, Except.error (DBError.integrityError "FOREIGN KEY constraint failed")) :=
  ⟨(channel_persist_null_and_fk_validation dbFixture none (some 1) none rfl).2.2.1 rfl,
   (channel_persist_null_and_fk_validation dbFixture (some "Announcements") none none rfl).2.2.2.1 rfl,
   (channel_persist_null_and_fk_validation dbFixture (some "Announcements") (some 99) none rfl).2.2.2.2
     "Announcements" 99 rfl rfl rfl⟩

/-- C5: constructing then persisting a channel with a valid group id
yields the committed record, and `read` on it returns exactly the
supplied name and group id, the store-assigned id, and an attributes
mapping equal to the supplied one (or the empty mapping if omitted). -/
theorem create_read_roundtrip (db : DB) (n : String) (g : Nat) (attrs : Option Attrs)
    (hfl : db.faults = [])
    (hex : db.groups.any (fun grp => grp.id == g) = true) :
    Channel.create (Channel.init (some n) (some g) attrs) ⟨db, []⟩ =
      ( ⟨⟨db.groups,
          db.channels ++ [⟨db.nextChannelId, n, g, some (Option.getD attrs [])⟩],
          db.nextChannelId + 1, db.faults⟩, []⟩
      , Except.ok ⟨some db.nextChannelId, some n, some g, some (Option.getD attrs [])⟩ ) ∧
    Channel.read ⟨some db.nextChannelId, some n, some g, some (Option.getD attrs [])⟩ =
      [ ("id", PyVal.int db.nextChannelId)
      , ("name", PyVal.str n)
      , ("attributes", PyVal.dict (Option.getD attrs []))
      , ("group_id", PyVal.int g) ] := by
  constructor
  · have hfault : Channel.faulted db (Channel.init (some n) (some g) attrs) = false := by
      simp [Channel.faulted, Channel.init, hfl]
    have h := create_ok_of_insert db _ _ _
      (insertChannel_ok db (Channel.init (some n) (some g) attrs) n g hfault rfl rfl hex)
    rw [← pyOrEmpty_eq_getD]
    exact h
  · rfl

/-- Witness for C5: the spec's own example, `Channel('Announcements', 5)`
persisted against the fixture store. -/
theorem create_read_roundtrip_witness :
    Channel.create (Channel.init (some "Announcements") (some 5) none) ⟨dbFixture, []⟩ =
      ( ⟨⟨groupsFixture, [⟨1, "Announcements", 5, some []⟩], 2, []⟩, []⟩
      , Except.ok ⟨some 1, some "Announcements", some 5, some []⟩ ) ∧
    Channel.read ⟨some 1, some "Announcements", some 5, some []⟩ =
      [ ("id", PyVal.int 1), ("name", PyVal.str "Announcements")
      , ("attributes", PyVal.dict []), ("group_id", PyVal.int 5) ] :=
  create_read_roundtrip dbFixture "Announcements" 5 none rfl rfl

end Flocker

namespace Flocker

/-- C7: during seeding, a persistence error other than an IntegrityError
is not caught: the loop stops at the failing item, touches none of the
remaining items, and re-raises the error; lifted to `initChannels`, a
store fault on the very first insert aborts the whole run with that
error wrapped in the seeder's error type. -/
theorem nonintegrity_error_propagates :
    (∀ (s : Session) (log : List LogMsg) (c : Channel) (rest : List Channel) (e : DBError),
      Session.commit (Session.add s c) = Except.error e →
      (∀ msg, e ≠ DBError.integrityError msg) →
      seedLoop s log (c :: rest) = Except.error e) ∧
    (∀ (db : DB) (gG gS gL gD gSS gM gSa gA : Group),
      Group.firstByName db.groups "General" = some gG →
      Group.firstByName db.groups "Support" = some gS →
      Group.firstByName db.groups "Limitless Connections" = some gL →
      Group.firstByName db.groups "DNHS Football" = some gD →
      Group.firstByName db.groups "School Subjects" = some gSS →
      Group.firstByName db.groups "Music" = some gM →
      Group.firstByName db.groups "Satire" = some gSa →
      Group.firstByName db.groups "Activity Hub" = some gA →
      db.faults = ["Announcements"] →
      initChannels db =
        Except.error (SeedError.dbError (DBError.operationalError "database fault"))) := by
  constructor
  · intro s log c rest e h hne
    cases e with
    | integrityError msg => exact absurd rfl (hne msg)
    | operationalError msg =>
      unfold seedLoop
      rw [h]
  · intro db gG gS gL gD gSS gM gSa gA hG hS hL hD hSS hM hSa hA hfl
    rw [initChannels_eq_loop db gG gS gL gD gSS gM gSa gA hG hS hL hD hSS hM hSa hA]
    have hins : DB.insertChannel db (Channel.init (some "Announcements") (some gG.id) none) =
        Except.error (DBError.operationalError "database fault") := by
      have hfault :
          Channel.faulted db (Channel.init (some "Announcements") (some gG.id) none) = true := by
        simp [Channel.faulted, Channel.init, hfl]
      unfold DB.insertChannel
      rw [hfault]
      rfl
    have hcommit :
        Session.commit (Session.add ⟨db, []⟩
            (Channel.init (some "Announcements") (some gG.id) none)) =
          Except.error (DBError.operationalError "database fault") := by
      unfold Session.add Session.commit
      simp only [List.nil_append]
      unfold DB.insertAll
      rw [hins]
    have hloop : seedLoop ⟨db, []⟩ [] (seedChannels gG gS gL gD gSS gM gSa gA) =
        Except.error (DBError.operationalError "database fault") := by
      simp only [seedChannels]
      unfold seedLoop
      rw [hcommit]
    rw [hloop]

/-- Witness for C7: a faulted store makes the loop abort on its single
item, and a seeder run whose first insert hits the fault aborts whole. -/
theorem nonintegrity_error_propagates_witness :
    seedLoop ⟨⟨groupsFixture, [], 1, ["X"]⟩, []⟩ []
        (Channel.init (some "X") (some 1) none :: [Channel.init (some "Y") (some 1) none]) =
      Except.error (DBError.operationalError "database fault") ∧
    initChannels ⟨groupsFixture, [], 1, ["Announcements"]⟩ =
      Except.error (SeedError.dbError (DBError.operationalError "database fault")) :=
  ⟨nonintegrity_error_propagates.1 ⟨⟨groupsFixture, [], 1, ["X"]⟩, []⟩ []
      (Channel.init (some "X") (some 1) none) [Channel.init (some "Y") (some 1) none]
      (DBError.operationalError "database fault") rfl (by intro msg hmsg; cases hmsg),
   nonintegrity_error_propagates.2 ⟨groupsFixture, [], 1, ["Announcements"]⟩
      ⟨1, "General"⟩ ⟨2, "Support"⟩ ⟨3, "Limitless Connections"⟩ ⟨4, "DNHS Football"⟩
      ⟨5, "School Subjects"⟩ ⟨6, "Music"⟩ ⟨7, "Satire"⟩ ⟨8, "Activity Hub"⟩
      rfl rfl rfl rfl rfl rfl rfl rfl rfl⟩

end Flocker

namespace Flocker

/-- C8: with all referenced groups present and a fault-free store,
`initChannels` persists exactly the sixteen fixed channels, one row per
item with consecutive store-assigned ids (hence one at a time, in list
order): the four home-page channels Announcements, Events, FAQ, Help
Desk followed by the twelve shared-interest channels, each carrying the
id of the group resolved from its fixed (channelName, groupName) pair. -/
theorem initChannels_seeds_sixteen_in_order (db : DB)
    (gG gS gL gD gSS gM gSa gA : Group)
    (hfl : db.faults = [])
    (hG : Group.firstByName db.groups "General" = some gG)
    (hS : Group.firstByName db.groups "Support" = some gS)
    (hL : Group.firstByName db.groups "Limitless Connections" = some gL)
    (hD : Group.firstByName db.groups "DNHS Football" = some gD)
    (hSS : Group.firstByName db.groups "School Subjects" = some gSS)
    (hM : Group.firstByName db.groups "Music" = some gM)
    (hSa : Group.firstByName db.groups "Satire" = some gSa)
    (hA : Group.firstByName db.groups "Activity Hub" = some gA) :
    ∃ log,
      initChannels db =
        Except.ok
          ( ⟨db.groups,
             db.channels ++
               [ ⟨db.nextChannelId, "Announcements", gG.id, some []⟩
               , ⟨db.nextChannelId + 1, "Events", gG.id, some []⟩
               , ⟨db.nextChannelId + 2, "FAQ", gS.id, some []⟩
               , ⟨db.nextChannelId + 3, "Help Desk", gS.id, some []⟩
               , ⟨db.nextChannelId + 4, "Penpal Letters", gL.id, some []⟩
               , ⟨db.nextChannelId + 5, "Game vs Poway", gD.id, some []⟩
               , ⟨db.nextChannelId + 6, "Game vs Westview", gD.id, some []⟩
               , ⟨db.nextChannelId + 7, "Math", gSS.id, some []⟩
               , ⟨db.nextChannelId + 8, "English", gSS.id, some []⟩
               , ⟨db.nextChannelId + 9, "Artist", gM.id, some []⟩
               , ⟨db.nextChannelId + 10, "Music Genre", gM.id, some []⟩
               , ⟨db.nextChannelId + 11, "Humor", gSa.id, some []⟩
               , ⟨db.nextChannelId + 12, "Memes", gSa.id, some []⟩
               , ⟨db.nextChannelId + 13, "Irony", gSa.id, some []⟩
               , ⟨db.nextChannelId + 14, "Cyber Patriots", gA.id, some []⟩
               , ⟨db.nextChannelId + 15, "Robotics", gA.id, some []⟩ ],
             db.nextChannelId + 16, db.faults⟩
          , log ) := by
  obtain ⟨log, h⟩ :=
    initChannels_ok db gG gS gL gD gSS gM gSa gA hfl hG hS hL hD hSS hM hSa hA
  refine ⟨log, ?_⟩
  rw [h]
  have hrows :
      rowsFrom db.nextChannelId (seedChannels gG gS gL gD gSS gM gSa gA) =
        [ ⟨db.nextChannelId, "Announcements", gG.id, some []⟩
        , ⟨db.nextChannelId + 1, "Events", gG.id, some []⟩
        , ⟨db.nextChannelId + 2, "FAQ", gS.id, some []⟩
        , ⟨db.nextChannelId + 3, "Help Desk", gS.id, some []⟩
        , ⟨db.nextChannelId + 4, "Penpal Letters", gL.id, some []⟩
        , ⟨db.nextChannelId + 5, "Game vs Poway", gD.id, some []⟩
        , ⟨db.nextChannelId + 6, "Game vs Westview", gD.id, some []⟩
        , ⟨db.nextChannelId + 7, "Math", gSS.id, some []⟩
        , ⟨db.nextChannelId + 8, "English", gSS.id, some []⟩
        , ⟨db.nextChannelId + 9, "Artist", gM.id, some []⟩
        , ⟨db.nextChannelId + 10, "Music Genre", gM.id, some []⟩
        , ⟨db.nextChannelId + 11, "Humor", gSa.id, some []⟩
        , ⟨db.nextChannelId + 12, "Memes", gSa.id, some []⟩
        , ⟨db.nextChannelId + 13, "Irony", gSa.id, some []⟩
        , ⟨db.nextChannelId + 14, "Cyber Patriots", gA.id, some []⟩
        , ⟨db.nextChannelId + 15, "Robotics", gA.id, some []⟩ ] := by
    simp only [seedChannels, rowsFrom, Channel.init, pyOrEmpty, Option.getD_some]
  rw [hrows]

/-- Witness for C8: seeding the fixture store yields exactly the sixteen
rows with ids 1 through 16. -/
theorem initChannels_seeds_sixteen_in_order_witness :
    ∃ log,
      initChannels dbFixture =
        Except.ok
          ( ⟨dbFixture.groups,
             dbFixture.channels ++
               [ ⟨1, "Announcements", 1, some []⟩
               , ⟨1 + 1, "Events", 1, some []⟩
               , ⟨1 + 2, "FAQ", 2, some []⟩
               , ⟨1 + 3, "Help Desk", 2, some []⟩
               , ⟨1 + 4, "Penpal Letters", 3, some []⟩
               , ⟨1 + 5, "Game vs Poway", 4, some []⟩
               , ⟨1 + 6, "Game vs Westview", 4, some []⟩
               , ⟨1 + 7, "Math", 5, some []⟩
               , ⟨1 + 8, "English", 5, some []⟩
               , ⟨1 + 9, "Artist", 6, some []⟩
               , ⟨1 + 10, "Music Genre", 6, some []⟩
               , ⟨1 + 11, "Humor", 7, some []⟩
               , ⟨1 + 12, "Memes", 7, some []⟩
               , ⟨1 + 13, "Irony", 7, some []⟩
               , ⟨1 + 14, "Cyber Patriots", 8, some []⟩
               , ⟨1 + 15, "Robotics", 8, some []⟩ ],
             1 + 16, dbFixture.faults⟩
          , log ) :=
  initChannels_seeds_sixteen_in_order dbFixture
    ⟨1, "General"⟩ ⟨2, "Support"⟩ ⟨3, "Limitless Connections"⟩ ⟨4, "DNHS Football"⟩
    ⟨5, "School Subjects"⟩ ⟨6, "Music"⟩ ⟨7, "Satire"⟩ ⟨8, "Activity Hub"⟩
    rfl rfl rfl rfl rfl rfl rfl rfl rfl

end Flocker

namespace Flocker

/-- C1: when a per-item insert of the seeding loop raises an
IntegrityError, only that insert is rolled back (the loop continues from
the prior store with an empty pending list), one diagnostic line is
appended, and the remaining items are processed; and re-running the whole
seeder against a store that already holds its seeded records raises no
error and only appends rows, leaving every previously seeded record in
place. -/
theorem seeder_skips_conflict_and_rerun_is_safe :
    (∀ (s : Session) (log : List LogMsg) (c : Channel) (rest : List Channel) (msg : String),
      Session.commit (Session.add s c) = Except.error (DBError.integrityError msg) →
      seedLoop s log (c :: rest) =
        seedLoop ⟨s.store, []⟩ (log ++ [LogMsg.skipped (Channel.name c)]) rest) ∧
    (∀ (db : DB) (gG gS gL gD gSS gM gSa gA : Group),
      db.faults = [] →
      Group.firstByName db.groups "General" = some gG →
      Group.firstByName db.groups "Support" = some gS →
      Group.firstByName db.groups "Limitless Connections" = some gL →
      Group.firstByName db.groups "DNHS Football" = some gD →
      Group.firstByName db.groups "School Subjects" = some gSS →
      Group.firstByName db.groups "Music" = some gM →
      Group.firstByName db.groups "Satire" = some gSa →
      Group.firstByName db.groups "Activity Hub" = some gA →
      ∃ db1 log1 db2 log2,
        initChannels db = Except.ok (db1, log1) ∧
        initChannels db1 = Except.ok (db2, log2) ∧
        (∃ tail, db2.channels = db1.channels ++ tail) ∧
        db2.groups = db1.groups) := by
  constructor
  · intro s log c rest msg h
    conv_lhs => unfold seedLoop
    rw [h]
    rfl
  · intro db gG gS gL gD gSS gM gSa gA hfl hG hS hL hD hSS hM hSa hA
    obtain ⟨log1, h1⟩ :=
      initChannels_ok db gG gS gL gD gSS gM gSa gA hfl hG hS hL hD hSS hM hSa hA
    obtain ⟨log2, h2⟩ :=
      initChannels_ok
        ⟨db.groups,
         db.channels ++ rowsFrom db.nextChannelId (seedChannels gG gS gL gD gSS gM gSa gA),
         db.nextChannelId + 16, db.faults⟩
        gG gS gL gD gSS gM gSa gA hfl hG hS hL hD hSS hM hSa hA
    exact ⟨_, log1, _, log2, h1, h2, ⟨_, rfl⟩, rfl⟩

/-- Witness for C1: a null-name channel makes the commit raise an
IntegrityError and the loop skips it and goes on; and the fixture store
seeds twice in a row without error. -/
theorem seeder_skips_conflict_and_rerun_is_safe_witness :
    seedLoop ⟨dbFixture, []⟩ []
        (Channel.init none (some 1) none :: [Channel.init (some "Y") (some 1) none]) =
      seedLoop ⟨dbFixture, []⟩
        ([] ++ [LogMsg.skipped (Channel.name (Channel.init none (some 1) none))])
        [Channel.init (some "Y") (some 1) none] ∧
    ∃ db1 log1 db2 log2,
      initChannels dbFixture = Except.ok (db1, log1) ∧
      initChannels db1 = Except.ok (db2, log2) ∧
      (∃ tail, db2.channels = db1.channels ++ tail) ∧
      db2.groups = db1.groups :=
  ⟨seeder_skips_conflict_and_rerun_is_safe.1 ⟨dbFixture, []⟩ []
      (Channel.init none (some 1) none) [Channel.init (some "Y") (some 1) none]
      "NOT NULL constraint failed" rfl,
   seeder_skips_conflict_and_rerun_is_safe.2 dbFixture
      ⟨1, "General"⟩ ⟨2, "Support"⟩ ⟨3, "Limitless Connections"⟩ ⟨4, "DNHS Football"⟩
      ⟨5, "School Subjects"⟩ ⟨6, "Music"⟩ ⟨7, "Satire"⟩ ⟨8, "Activity Hub"⟩
      rfl rfl rfl rfl rfl rfl rfl rfl rfl⟩

end Flocker
